import Mathlib

/-!
Shallow embedding of `RealtimeTTS/engines/piper_engine.py` (classes
`PiperVoice` and `PiperEngine`) and proofs about the claims of the spec.

External effects (filesystem probes, the subprocess, the WAV reader, the
temporary-file allocator) are modelled by an explicit environment record
whose fields give the outcome of each external step; Python exceptions are
modelled by `Except` values, with each `except` clause of the source an
explicit handler case.
-/

namespace PiperSpec

/-- Decidable equality for `Except`, so that concrete runs of the
embedded functions can be checked by `decide`. -/
instance {ε α : Type} [DecidableEq ε] [DecidableEq α] : DecidableEq (Except ε α) := fun a b =>
  match a, b with
  | .ok x, .ok y =>
    if h : x = y then .isTrue (by rw [h]) else .isFalse (by simp [h])
  | .error x, .error y =>
    if h : x = y then .isTrue (by rw [h]) else .isFalse (by simp [h])
  | .ok _, .error _ => .isFalse (by simp)
  | .error _, .ok _ => .isFalse (by simp)

/-- JSON values as produced by `json.load`.  An `obj` is a parsed Python
dict (keys unique, first lookup wins). -/
inductive Json where
  | null : Json
  | bool (b : Bool) : Json
  | num (q : Rat) : Json
  | str (s : String) : Json
  | arr (xs : List Json) : Json
  | obj (kvs : List (String × Json)) : Json

/-- Lookup of a key in a parsed dict. -/
def lookupKey : List (String × Json) → String → Option Json
  | [], _ => none
  | (k, v) :: rest, key => if k = key then some v else lookupKey rest key

/-- Substring test, modelling Python `pat in s` on strings. -/
def strContains (s pat : String) : Bool :=
  (s.splitOn pat).length ≥ 2

/-- Equality of a JSON value with a Python string, as Python `==` sees it
(used for `in` on lists). -/
def isStrVal (k : String) : Json → Bool
  | .str s => s = k
  | _ => false

/-- Python `k in j` for a string `k`: membership for dicts and lists,
substring for strings, `TypeError` (modelled as `error`) otherwise. -/
def pyContains (j : Json) (k : String) : Except Unit Bool :=
  match j with
  | .obj kvs => .ok (kvs.any (fun p => p.1 = k))
  | .arr xs => .ok (xs.any (isStrVal k))
  | .str s => .ok (strContains s k)
  | _ => .error ()

/-- Python `j[k]` for a string key `k`: dict lookup (`KeyError` if
missing), `TypeError` for every other value. -/
def pyIndex (j : Json) (k : String) : Except Unit Json :=
  match j with
  | .obj kvs =>
    match lookupKey kvs k with
    | some v => .ok v
    | none => .error ()
  | _ => .error ()

/-- Parse of a non-empty all-digit character list as a natural number. -/
def parseDigits (cs : List Char) : Option Nat :=
  if cs ≠ [] ∧ cs.all Char.isDigit then
    some (cs.foldl (fun n c => 10 * n + (c.toNat - 48)) 0)
  else none

/-- Python `int(s)` on a string: an optional sign followed by digits
(surrounding whitespace and digit-group underscores, which Python also
accepts, are not modelled); anything else raises `ValueError`. -/
def pyStrToInt (s : String) : Except Unit Int :=
  match s.data with
  | '-' :: rest =>
    match parseDigits rest with
    | some n => .ok (-(n : Int))
    | none => .error ()
  | '+' :: rest =>
    match parseDigits rest with
    | some n => .ok (n : Int)
    | none => .error ()
  | cs =>
    match parseDigits cs with
    | some n => .ok (n : Int)
    | none => .error ()

/-- Python `int(x)` on a JSON value: truncation toward zero for numbers,
`1`/`0` for booleans, digit parsing for strings, `TypeError` otherwise. -/
def pyInt (j : Json) : Except Unit Int :=
  match j with
  | .num q => .ok (Int.tdiv q.num (q.den : Int))
  | .bool b => .ok (if b then 1 else 0)
  | .str s => pyStrToInt s
  | _ => .error ()

/-- Guard of the first branch of the sample-rate extraction:
`'audio' in config_data and 'sample_rate' in config_data['audio']`,
with Python short-circuit evaluation and possible `TypeError`s. -/
def audioCond (config : Json) : Except Unit Bool :=
  match pyContains config "audio" with
  | .error e => .error e
  | .ok false => .ok false
  | .ok true =>
    match pyIndex config "audio" with
    | .error e => .error e
    | .ok a => pyContains a "sample_rate"

/-- Body of the `try` block of `PiperVoice.__init__` that inspects the
parsed config: `ok (some n)` when a sample rate was assigned, `ok none`
when neither branch fired, `error` when an exception was raised. -/
def sampleRateResult (config : Json) : Except Unit (Option Int) :=
  match audioCond config with
  | .error _ => .error ()
  | .ok true =>
    match pyIndex config "audio" with
    | .error _ => .error ()
    | .ok a =>
      match pyIndex a "sample_rate" with
      | .error _ => .error ()
      | .ok v =>
        match pyInt v with
        | .error _ => .error ()
        | .ok n => .ok (some n)
  | .ok false =>
    match pyContains config "sample_rate" with
    | .error _ => .error ()
    | .ok false => .ok none
    | .ok true =>
      match pyIndex config "sample_rate" with
      | .error _ => .error ()
      | .ok v =>
        match pyInt v with
        | .error _ => .error ()
        | .ok n => .ok (some n)

/-- Value of `self.native_sample_rate` after the `try`/`except` of
`PiperVoice.__init__` ran on a successfully parsed config: any raised
exception is swallowed by `except Exception: pass`, keeping `24000`. -/
def native_sample_rate_of (config : Json) : Int :=
  match sampleRateResult config with
  | .ok (some n) => n
  | .ok none => 24000
  | .error _ => 24000

/-- Outcome of resolving and loading the config file in
`PiperVoice.__init__`: no config file resolved (or it does not exist),
`json.load` raised, or a parsed JSON value. -/
inductive ConfigSource where
  | noFile : ConfigSource
  | unparsable : ConfigSource
  | parsed (j : Json) : ConfigSource

/-- Value of `self.native_sample_rate` after `PiperVoice.__init__`, as a
function of how the config loading went. -/
def native_sample_rate_from : ConfigSource → Int
  | .noFile => 24000
  | .unparsable => 24000
  | .parsed j => native_sample_rate_of j

/-- State of a `PiperVoice` object after `__init__`: the model path, the
resolved config path (`None` when no sidecar was found), and the detected
native sample rate. -/
structure PiperVoice where
  model_file : String
  config_file : Option String
  native_sample_rate : Int
deriving DecidableEq

/-- State of a `PiperEngine` object: executable path, current voice,
length scale, and the output queue (front of the list = oldest item;
items are raw audio byte buffers). -/
structure PiperEngine where
  piper_path : String
  voice : Option PiperVoice
  length_scale : Rat
  queue : List (List Nat)
deriving DecidableEq

/-- PortAudio sample-format constant `pyaudio.paInt16`. -/
def paInt16 : Nat := 8

/-- Resolution of `self.piper_path` in `PiperEngine.__init__`:
`piper_path` argument if given, else the `PIPER_PATH` environment
variable if set and truthy (non-empty), else the platform default. -/
def resolve_piper_path (piper_path : Option String) (env_piper_path : Option String)
    (os_name_nt : Bool) : String :=
  match piper_path with
  | some p => p
  | none =>
    let default_exe := if os_name_nt then "piper.exe" else "piper"
    match env_piper_path with
    | some env_path => if env_path = "" then default_exe else env_path
    | none => default_exe

/-- Return value of `PiperEngine.get_stream_info`.  The local `rate`
computed from the voice is bound exactly as in the source, where it is
dead: the returned tuple is the constant `(pyaudio.paInt16, 1, 24000)`. -/
def get_stream_info (eng : PiperEngine) : Nat × Nat × Nat :=
  let _rate : Int :=
    match eng.voice with
    | some v => v.native_sample_rate
    | none => 24000
  (paInt16, 1, 24000)

/-- Return value of `PiperEngine.get_voices`. -/
def get_voices (_eng : PiperEngine) : List PiperVoice := []

/-- Result of `PiperEngine.set_voice`. -/
def set_voice (eng : PiperEngine) (v : PiperVoice) : PiperEngine :=
  { eng with voice := v }

/-- Elements of the command list.  `ratStr q` stands for the Python
rendering `str(self.length_scale)` of the float `q`. -/
inductive Arg where
  | str (s : String) : Arg
  | ratStr (q : Rat) : Arg
deriving DecidableEq

/-- Command list built by `synthesize` (source lines 71-81):
executable, `-m` model, `-f` output path, then `-c` config path when
`self.voice.config_file` is truthy and the file exists, then
`--length_scale` and its value when `self.length_scale != 1.0`. -/
def cmdList (eng : PiperEngine) (v : PiperVoice) (output_wav_path : String)
    (config_exists : Bool) : List Arg :=
  [Arg.str eng.piper_path, Arg.str "-m", Arg.str v.model_file,
   Arg.str "-f", Arg.str output_wav_path]
  ++ (match v.config_file with
      | some c => if c ≠ "" ∧ config_exists then [Arg.str "-c", Arg.str c] else []
      | none => [])
  ++ (if eng.length_scale ≠ 1 then
        [Arg.str "--length_scale", Arg.ratStr eng.length_scale] else [])

/-- Python exceptions that the body of `synthesize` can raise, one
constructor per `except` clause of the source (`Exception` covers every
unclassified error). -/
inductive PyExc where
  | fileNotFoundError : PyExc
  | calledProcessError (returncode : Int) (stderrBytes : List Nat) : PyExc
  | waveError : PyExc
  | exceptionOther : PyExc
deriving DecidableEq

/-- Outcome of `subprocess.run(..., check=True)`: executable missing,
non-zero exit (with captured stderr), some other OS failure, or success. -/
inductive RunResult where
  | fileNotFound : RunResult
  | exitNonZero (returncode : Int) (stderrBytes : List Nat) : RunResult
  | otherFail : RunResult
  | ok : RunResult
deriving DecidableEq

/-- Outcome of `wave.open` + `readframes` on the produced file: file
missing, malformed WAV header (`wave.Error`), other read failure, or the
raw frame bytes. -/
inductive WavResult where
  | fileNotFound : WavResult
  | waveError : WavResult
  | otherErr : WavResult
  | ok (frames : List Nat) : WavResult
deriving DecidableEq

/-- Environment of one `synthesize` call: the outcome of each external
step.  `tmp = none` means `tempfile.NamedTemporaryFile` itself raised.
`config_exists` is `os.path.exists(self.voice.config_file)`;
`file_at_finally` is `os.path.isfile(output_wav_path)` in the `finally`
block; `remove_ok` tells whether `os.remove` succeeds there. -/
structure SynthEnv where
  tmp : Option String
  config_exists : Bool
  run : RunResult
  wav : WavResult
  file_at_finally : Bool
  remove_ok : Bool
deriving DecidableEq

/-- Observable outcome of one `synthesize` call: returned boolean, the
output queue afterwards, whether `subprocess.run` was reached, whether an
error line was printed, whether the `finally` block attempted `os.remove`,
and whether the temporary file still exists after the call. -/
structure SynthResult where
  ret : Bool
  queue : List (List Nat)
  spawned : Bool
  logged : Bool
  remove_attempted : Bool
  exists_after : Bool
  args : Option (List Arg)
deriving DecidableEq

/-- Body of the `try` block after the command list is built: run the
process, then read the WAV and put its frames on the queue.  `ok` carries
the queue after the successful `self.queue.put(audio_data)`. -/
def tryBody (eng : PiperEngine) (env : SynthEnv) : Except PyExc (List (List Nat)) :=
  match env.run with
  | .fileNotFound => .error .fileNotFoundError
  | .exitNonZero c s => .error (.calledProcessError c s)
  | .otherFail => .error .exceptionOther
  | .ok =>
    match env.wav with
    | .fileNotFound => .error .fileNotFoundError
    | .waveError => .error .waveError
    | .otherErr => .error .exceptionOther
    | .ok frames => .ok (eng.queue ++ [frames])

/-- The `except` clauses of `synthesize`: each returns `some false`
(handler found, returns `False` after printing); `none` would mean the
exception propagates to the caller.  The trailing `except Exception`
catches every remaining case. -/
def handleExc : PyExc → Option Bool
  | .fileNotFoundError => some false
  | .calledProcessError _ _ => some false
  | .waveError => some false
  | .exceptionOther => some false

/-- The `finally` block: `os.remove` is attempted iff `output_wav_path`
is truthy and `os.path.isfile` holds; a failing remove is swallowed. -/
def finallyCleanup (output_wav_path : String) (env : SynthEnv) : Bool × Bool :=
  let attempted := (output_wav_path != "") && env.file_at_finally
  (attempted, env.file_at_finally && !(attempted && env.remove_ok))

/-- Full embedding of `PiperEngine.synthesize`.  `Except.error e` would
mean the exception `e` escapes to the caller; every path of the source is
reflected: the voice precondition, temp-file allocation, command build,
process run, WAV read, queue put, the `except` clauses and the `finally`
cleanup. -/
def synthesize (eng : PiperEngine) (_text : String) (env : SynthEnv) :
    Except PyExc SynthResult :=
  match eng.voice with
  | none => .ok ⟨false, eng.queue, false, true, false, false, none⟩
  | some v =>
    if v.model_file = "" then
      .ok ⟨false, eng.queue, false, true, false, false, none⟩
    else
      match env.tmp with
      | none =>
        -- NamedTemporaryFile raised; `output_wav_path` is still "", the
        -- generic handler returns False, the `finally` removes nothing.
        match handleExc .exceptionOther with
        | some b => .ok ⟨b, eng.queue, false, true, false, false, none⟩
        | none => .error .exceptionOther
      | some output_wav_path =>
        let args := cmdList eng v output_wav_path env.config_exists
        let fin := finallyCleanup output_wav_path env
        match tryBody eng env with
        | .ok newQueue =>
          .ok ⟨true, newQueue, true, false, fin.1, fin.2, some args⟩
        | .error e =>
          match handleExc e with
          | some b => .ok ⟨b, eng.queue, true, true, fin.1, fin.2, some args⟩
          | none => .error e

/-! Helper lemmas about dict lookup and the sample-rate extraction. -/

theorem lookupKey_isSome_any (kvs : List (String × Json)) (k : String) :
    (lookupKey kvs k).isSome = kvs.any (fun p => p.1 = k) := by
  induction kvs with
  | nil => rfl
  | cons hd tl ih =>
    obtain ⟨k1, v1⟩ := hd
    by_cases h : k1 = k
    · simp [lookupKey, h]
    · simp [lookupKey, h, ih]

theorem any_of_lookup_some {kvs : List (String × Json)} {k : String} {v : Json}
    (h : lookupKey kvs k = some v) : kvs.any (fun p => p.1 = k) = true := by
  rw [← lookupKey_isSome_any, h]
  rfl

theorem any_of_lookup_none {kvs : List (String × Json)} {k : String}
    (h : lookupKey kvs k = none) : kvs.any (fun p => p.1 = k) = false := by
  rw [← lookupKey_isSome_any, h]
  rfl

theorem sampleRateResult_audio {kvs akvs : List (String × Json)} {v : Json} {n : Int}
    (ha : lookupKey kvs "audio" = some (Json.obj akvs))
    (hs : lookupKey akvs "sample_rate" = some v)
    (hn : pyInt v = .ok n) :
    sampleRateResult (Json.obj kvs) = .ok (some n) := by
  simp [sampleRateResult, audioCond, pyContains, pyIndex, ha, hs, hn,
    any_of_lookup_some ha, any_of_lookup_some hs]

theorem sampleRateResult_toplevel {kvs : List (String × Json)} {v : Json} {n : Int}
    (ha : lookupKey kvs "audio" = none ∨
      ∃ akvs, lookupKey kvs "audio" = some (Json.obj akvs) ∧
        lookupKey akvs "sample_rate" = none)
    (hs : lookupKey kvs "sample_rate" = some v)
    (hn : pyInt v = .ok n) :
    sampleRateResult (Json.obj kvs) = .ok (some n) := by
  rcases ha with ha | ⟨akvs, ha, hnone⟩
  · simp [sampleRateResult, audioCond, pyContains, pyIndex, ha, hs, hn,
      any_of_lookup_none ha, any_of_lookup_some hs]
  · simp [sampleRateResult, audioCond, pyContains, pyIndex, ha, hs, hn,
      any_of_lookup_some ha, any_of_lookup_none hnone, any_of_lookup_some hs]

/-! Main theorems, one per claim of the specification. -/

/-- Claim C1: for every engine state, `get_stream_info()` returns the
fixed triple (`pyaudio.paInt16`, 1 channel, 24000 Hz), regardless of
which voice is set and of that voice's detected `native_sample_rate`. -/
theorem C1_get_stream_info_fixed (eng : PiperEngine) :
    get_stream_info eng = (paInt16, 1, 24000) := rfl

/-- Claim C10: when `PiperEngine` is constructed with no explicit
executable path and `PIPER_PATH` is set to the empty string, the override
is treated as absent: the platform default name is used (`piper.exe` on
Windows, `piper` otherwise) and the empty string is never the resolved
path. -/
theorem C10_empty_env_ignored (os_name_nt : Bool) :
    resolve_piper_path none (some "") os_name_nt =
      (if os_name_nt then "piper.exe" else "piper") ∧
    resolve_piper_path none (some "") os_name_nt ≠ "" := by
  cases os_name_nt <;> simp [resolve_piper_path]

/-- Sample rate prescribed by the top-level fallback of claim C6: the
top-level `"sample_rate"` value coerced to integer, when present. -/
def topLevelSampleRate (kvs : List (String × Json)) : Option Int :=
  match lookupKey kvs "sample_rate" with
  | some v => (pyInt v).toOption
  | none => none

/-- Sample rate prescribed by claim C6 read literally (a second
definition following the spec's words, for comparison with
`native_sample_rate_of`): if an `"audio"` object with a `"sample_rate"`
field is present its value coerced to integer wins; otherwise a present
top-level `"sample_rate"` coerced to integer is used. -/
def claimedSampleRate (j : Json) : Option Int :=
  match j with
  | .obj kvs =>
    match lookupKey kvs "audio" with
    | some (.obj akvs) =>
      match lookupKey akvs "sample_rate" with
      | some v => (pyInt v).toOption
      | none => topLevelSampleRate kvs
    | _ => topLevelSampleRate kvs
  | _ => none

/-- Claim C6 as stated is false on the code: in the config
`{"audio": null, "sample_rate": 22050}` no audio *object* carries a
sample rate, so the claim prescribes the top-level value 22050; but the
code's membership test `'sample_rate' in config_data['audio']` raises a
`TypeError` on `null`, the `except` swallows it, and the detected rate
stays 24000. -/
theorem C6_counterexample :
    claimedSampleRate (Json.obj [("audio", Json.null), ("sample_rate", Json.num 22050)]) =
      some 22050 ∧
    native_sample_rate_of
      (Json.obj [("audio", Json.null), ("sample_rate", Json.num 22050)]) = 24000 ∧
    (22050 : Int) ≠ 24000 := by
  refine ⟨rfl, rfl, by decide⟩

/-- Claim C6 amended: for a parsed config object, (1) if `"audio"` maps
to an object whose `"sample_rate"` field coerces to integer `n`, the
detected rate is `n`, taking precedence over any top-level field, and
(2) if `"audio"` is absent or maps to an object without a
`"sample_rate"` field, and the top-level `"sample_rate"` coerces to
integer `n`, the detected rate is `n`.  (The amendment excludes configs
whose `"audio"` key holds a non-object, where the code's membership test
raises and the default survives.) -/
theorem C6_sample_rate_precedence (kvs : List (String × Json)) :
    (∀ akvs v n, lookupKey kvs "audio" = some (Json.obj akvs) →
      lookupKey akvs "sample_rate" = some v → pyInt v = .ok n →
      native_sample_rate_of (Json.obj kvs) = n) ∧
    (∀ v n,
      (lookupKey kvs "audio" = none ∨
        ∃ akvs, lookupKey kvs "audio" = some (Json.obj akvs) ∧
          lookupKey akvs "sample_rate" = none) →
      lookupKey kvs "sample_rate" = some v → pyInt v = .ok n →
      native_sample_rate_of (Json.obj kvs) = n) := by
  constructor
  · intro akvs v n ha hs hn
    rw [native_sample_rate_of, sampleRateResult_audio ha hs hn]
  · intro v n ha hs hn
    rw [native_sample_rate_of, sampleRateResult_toplevel ha hs hn]

/-- Witness for `C6_sample_rate_precedence`: both amended branches hold
at concrete configs, and nested `audio.sample_rate` beats the top-level
field. -/
theorem C6_sample_rate_precedence_witness :
    native_sample_rate_of
      (Json.obj [("audio", Json.obj [("sample_rate", Json.num 22050)]),
                 ("sample_rate", Json.num 16000)]) = 22050 ∧
    native_sample_rate_of
      (Json.obj [("audio", Json.obj [("sample_rate", Json.num 22050)])]) = 22050 ∧
    native_sample_rate_of
      (Json.obj [("audio", Json.obj []), ("sample_rate", Json.num 16000)]) = 16000 ∧
    native_sample_rate_of (Json.obj [("sample_rate", Json.num 16000)]) = 16000 := by
  refine ⟨?_, ?_, ?_, ?_⟩
  · exact (C6_sample_rate_precedence _).1 _ _ _ rfl rfl rfl
  · exact (C6_sample_rate_precedence _).1 _ _ _ rfl rfl rfl
  · exact (C6_sample_rate_precedence _).2 _ _ (Or.inr ⟨_, rfl, rfl⟩) rfl rfl
  · exact (C6_sample_rate_precedence _).2 _ _ (Or.inl rfl) rfl rfl

/-- Claim C7: for every failing config input (no file resolved, invalid
JSON, missing sample-rate fields, or any value on which the extraction
raises — e.g. a non-coercible value), `PiperVoice` construction completes
with the default `native_sample_rate` of 24000: the `except` swallows
every failure silently. -/
theorem C7_config_failure_default (src : ConfigSource)
    (h : src = .noFile ∨ src = .unparsable ∨
      ∃ j, src = .parsed j ∧
        (sampleRateResult j = .error () ∨ sampleRateResult j = .ok none)) :
    native_sample_rate_from src = 24000 := by
  rcases h with h | h | ⟨j, h, hj⟩
  · rw [h]; rfl
  · rw [h]; rfl
  · rw [h]
    rcases hj with hj | hj <;> simp [native_sample_rate_from, native_sample_rate_of, hj]

/-- Witness for `C7_config_failure_default`: a missing file, invalid
JSON, an empty object, and an object with a non-coercible sample rate
all leave the default 24000. -/
theorem C7_config_failure_default_witness :
    native_sample_rate_from .noFile = 24000 ∧
    native_sample_rate_from .unparsable = 24000 ∧
    native_sample_rate_from (.parsed (Json.obj [])) = 24000 ∧
    native_sample_rate_from
      (.parsed (Json.obj [("sample_rate", Json.str "fast")])) = 24000 := by
  refine ⟨?_, ?_, ?_, ?_⟩
  · exact C7_config_failure_default _ (Or.inl rfl)
  · exact C7_config_failure_default _ (Or.inr (Or.inl rfl))
  · exact C7_config_failure_default _ (Or.inr (Or.inr ⟨_, rfl, Or.inr rfl⟩))
  · exact C7_config_failure_default _ (Or.inr (Or.inr ⟨_, rfl, Or.inl (by decide)⟩))

/-- Claim C5: for every text and environment, if no voice is set or the
current voice's model path is empty, `synthesize` returns `False`, prints
an error, leaves the queue unchanged and never reaches the subprocess
call (and allocates no temp file, so no cleanup happens either). -/
theorem C5_no_voice_aborts (eng : PiperEngine) (text : String) (env : SynthEnv)
    (h : eng.voice = none ∨ ∃ v, eng.voice = some v ∧ v.model_file = "") :
    synthesize eng text env =
      .ok ⟨false, eng.queue, false, true, false, false, none⟩ := by
  rcases h with h | ⟨v, h, hm⟩
  · unfold synthesize
    rw [h]
  · unfold synthesize
    rw [h]
    simp [hm]

/-- Witness for `C5_no_voice_aborts`: a concrete engine with no voice and
one with an empty model path. -/
theorem C5_no_voice_aborts_witness :
    synthesize ⟨"piper", none, 1, [[7]]⟩ "hello"
      ⟨some "/tmp/o.wav", false, .ok, .ok [1, 2], true, true⟩ =
      .ok ⟨false, [[7]], false, true, false, false, none⟩ ∧
    synthesize ⟨"piper", some ⟨"", none, 24000⟩, 1, []⟩ "hello"
      ⟨some "/tmp/o.wav", false, .ok, .ok [1, 2], true, true⟩ =
      .ok ⟨false, [], false, true, false, false, none⟩ := by
  constructor
  · exact C5_no_voice_aborts _ _ _ (Or.inl rfl)
  · exact C5_no_voice_aborts _ _ _ (Or.inr ⟨_, rfl, rfl⟩)

/-- Claim C2: for every text, if a voice with a non-empty model path is
set, the temp file was allocated, the external process exits zero and
the produced WAV is read back as `frames`, then `synthesize` returns
`True` and pushes exactly one buffer, `frames`, onto the output queue. -/
theorem C2_success_enqueues_frames (eng : PiperEngine) (v : PiperVoice)
    (text p : String) (env : SynthEnv) (frames : List Nat)
    (hv : eng.voice = some v) (hm : v.model_file ≠ "")
    (ht : env.tmp = some p) (hr : env.run = .ok) (hw : env.wav = .ok frames) :
    (synthesize eng text env).map SynthResult.ret = .ok true ∧
    (synthesize eng text env).map SynthResult.queue = .ok (eng.queue ++ [frames]) := by
  unfold synthesize
  rw [hv]
  simp [hm, ht, tryBody, hr, hw, Except.map]

/-- Witness for `C2_success_enqueues_frames`: a concrete successful run
returns `True` and appends the WAV frames as one buffer behind the
existing queue content. -/
theorem C2_success_enqueues_frames_witness :
    (synthesize ⟨"piper", some ⟨"m.onnx", none, 24000⟩, 1, [[9]]⟩ "hello"
        ⟨some "/tmp/o.wav", false, .ok, .ok [1, 2, 3], true, true⟩).map
      SynthResult.ret = .ok true ∧
    (synthesize ⟨"piper", some ⟨"m.onnx", none, 24000⟩, 1, [[9]]⟩ "hello"
        ⟨some "/tmp/o.wav", false, .ok, .ok [1, 2, 3], true, true⟩).map
      SynthResult.queue = .ok [[9], [1, 2, 3]] :=
  C2_success_enqueues_frames
    ⟨"piper", some ⟨"m.onnx", none, 24000⟩, 1, [[9]]⟩ ⟨"m.onnx", none, 24000⟩
    "hello" "/tmp/o.wav" ⟨some "/tmp/o.wav", false, .ok, .ok [1, 2, 3], true, true⟩
    [1, 2, 3] rfl (by decide) rfl rfl rfl

/-- Claim C3: for every engine, text and environment, `synthesize` never
propagates an exception (the embedded result is always `Except.ok`, i.e.
some `except` clause of the source catches every raisable exception), and
the returned boolean is `False` exactly on the paths that print an error
line — every failure path funnels to `False`. -/
theorem C3_no_exception_escapes (eng : PiperEngine) (text : String) (env : SynthEnv) :
    ∃ r : SynthResult, synthesize eng text env = .ok r ∧
      (r.ret = false ↔ r.logged = true) := by
  rcases env with ⟨tmp, ce, run, wav, faf, rok⟩
  rcases eng with ⟨pp, voice, ls, q⟩
  cases voice with
  | none => exact ⟨_, rfl, by simp⟩
  | some v =>
    unfold synthesize
    by_cases hm : v.model_file = ""
    · exact ⟨⟨false, q, false, true, false, false, none⟩, by simp [hm], by simp⟩
    · simp only [hm, if_false, if_neg hm]
      cases tmp with
      | none => exact ⟨_, rfl, by simp⟩
      | some p =>
        cases run with
        | fileNotFound => exact ⟨_, rfl, by simp⟩
        | exitNonZero c s => exact ⟨_, rfl, by simp⟩
        | otherFail => exact ⟨_, rfl, by simp⟩
        | ok =>
          cases wav with
          | fileNotFound => exact ⟨_, rfl, by simp⟩
          | waveError => exact ⟨_, rfl, by simp⟩
          | otherErr => exact ⟨_, rfl, by simp⟩
          | ok frames => exact ⟨_, rfl, by simp⟩

/-- Claim C4: whenever `synthesize` returns `False`, the output queue is
unchanged — no audio buffer was enqueued for that utterance. -/
theorem C4_failure_leaves_queue (eng : PiperEngine) (text : String) (env : SynthEnv)
    (r : SynthResult) (h : synthesize eng text env = .ok r) (hf : r.ret = false) :
    r.queue = eng.queue := by
  rcases env with ⟨tmp, ce, run, wav, faf, rok⟩
  rcases eng with ⟨pp, voice, ls, q⟩
  cases voice with
  | none =>
    injection h with h
    rw [← h]
  | some v =>
    simp only [synthesize] at h
    by_cases hm : v.model_file = ""
    · rw [if_pos hm] at h
      injection h with h
      rw [← h]
    · rw [if_neg hm] at h
      cases tmp with
      | none =>
        injection h with h
        rw [← h]
      | some p =>
        cases run with
        | fileNotFound => injection h with h; rw [← h]
        | exitNonZero c s => injection h with h; rw [← h]
        | otherFail => injection h with h; rw [← h]
        | ok =>
          cases wav with
          | fileNotFound => injection h with h; rw [← h]
          | waveError => injection h with h; rw [← h]
          | otherErr => injection h with h; rw [← h]
          | ok frames =>
            injection h with h
            rw [← h] at hf
            simp at hf

/-- Witness for `C4_failure_leaves_queue`: a concrete run whose process
exits non-zero returns `False` and leaves the queue at its prior
content `[[9]]`. -/
theorem C4_failure_leaves_queue_witness :
    synthesize ⟨"piper", some ⟨"m.onnx", none, 24000⟩, 1, [[9]]⟩ "hello"
      ⟨some "/tmp/o.wav", false, .exitNonZero 1 [69], .ok [1, 2], true, true⟩ =
      .ok ⟨false, [[9]], true, true, true, false,
        some (cmdList ⟨"piper", some ⟨"m.onnx", none, 24000⟩, 1, [[9]]⟩
          ⟨"m.onnx", none, 24000⟩ "/tmp/o.wav" false)⟩ ∧
    SynthResult.queue
      ⟨false, [[9]], true, true, true, false,
        some (cmdList ⟨"piper", some ⟨"m.onnx", none, 24000⟩, 1, [[9]]⟩
          ⟨"m.onnx", none, 24000⟩ "/tmp/o.wav" false)⟩ = [[9]] :=
  ⟨by decide,
   C4_failure_leaves_queue ⟨"piper", some ⟨"m.onnx", none, 24000⟩, 1, [[9]]⟩ "hello"
     ⟨some "/tmp/o.wav", false, .exitNonZero 1 [69], .ok [1, 2], true, true⟩
     ⟨false, [[9]], true, true, true, false,
       some (cmdList ⟨"piper", some ⟨"m.onnx", none, 24000⟩, 1, [[9]]⟩
         ⟨"m.onnx", none, 24000⟩ "/tmp/o.wav" false)⟩ (by decide) (by decide)⟩

/-- Claim C9: for every outcome of a `synthesize` call in which the temp
path was allocated (a non-empty name), the `finally` block always runs:
if the file exists there, `os.remove` is attempted; a successful removal
leaves no file behind; a file that never existed leaves nothing behind;
and the returned result does not depend on whether the removal succeeds
or fails — the deletion failure is swallowed. -/
theorem C9_cleanup_always (eng : PiperEngine) (v : PiperVoice) (text p : String)
    (env : SynthEnv) (r : SynthResult)
    (hv : eng.voice = some v) (hm : v.model_file ≠ "")
    (ht : env.tmp = some p) (hp : p ≠ "")
    (h : synthesize eng text env = .ok r) :
    (env.file_at_finally = true → r.remove_attempted = true) ∧
    (env.file_at_finally = true → env.remove_ok = true → r.exists_after = false) ∧
    (env.file_at_finally = false → r.exists_after = false) ∧
    (∀ (b : Bool) (r' : SynthResult),
      synthesize eng text { env with remove_ok := b } = .ok r' → r'.ret = r.ret) := by
  rcases eng with ⟨pp, voice, ls, q⟩
  obtain rfl : voice = some v := hv
  rcases env with ⟨tmp, ce, run, wav, faf, rok⟩
  obtain rfl : tmp = some p := ht
  have hp' : (p != "") = true := by simpa using hp
  cases run with
  | fileNotFound =>
    simp only [synthesize, if_neg hm, tryBody, handleExc, Except.ok.injEq] at h
    subst h
    refine ⟨fun hf => ?_, fun hf hr => ?_, fun hf => ?_, fun b r' h' => ?_⟩
    · simp at hf
      simp [finallyCleanup, hp', hf]
    · simp at hf hr
      simp [finallyCleanup, hp', hf, hr]
    · simp at hf
      simp [finallyCleanup, hf]
    · simp only [synthesize, if_neg hm, tryBody, handleExc, Except.ok.injEq] at h'
      subst h'
      rfl
  | exitNonZero c s =>
    simp only [synthesize, if_neg hm, tryBody, handleExc, Except.ok.injEq] at h
    subst h
    refine ⟨fun hf => ?_, fun hf hr => ?_, fun hf => ?_, fun b r' h' => ?_⟩
    · simp at hf
      simp [finallyCleanup, hp', hf]
    · simp at hf hr
      simp [finallyCleanup, hp', hf, hr]
    · simp at hf
      simp [finallyCleanup, hf]
    · simp only [synthesize, if_neg hm, tryBody, handleExc, Except.ok.injEq] at h'
      subst h'
      rfl
  | otherFail =>
    simp only [synthesize, if_neg hm, tryBody, handleExc, Except.ok.injEq] at h
    subst h
    refine ⟨fun hf => ?_, fun hf hr => ?_, fun hf => ?_, fun b r' h' => ?_⟩
    · simp at hf
      simp [finallyCleanup, hp', hf]
    · simp at hf hr
      simp [finallyCleanup, hp', hf, hr]
    · simp at hf
      simp [finallyCleanup, hf]
    · simp only [synthesize, if_neg hm, tryBody, handleExc, Except.ok.injEq] at h'
      subst h'
      rfl
  | ok =>
    cases wav with
    | fileNotFound =>
      simp only [synthesize, if_neg hm, tryBody, handleExc, Except.ok.injEq] at h
      subst h
      refine ⟨fun hf => ?_, fun hf hr => ?_, fun hf => ?_, fun b r' h' => ?_⟩
      · simp at hf
        simp [finallyCleanup, hp', hf]
      · simp at hf hr
        simp [finallyCleanup, hp', hf, hr]
      · simp at hf
        simp [finallyCleanup, hf]
      · simp only [synthesize, if_neg hm, tryBody, handleExc, Except.ok.injEq] at h'
        subst h'
        rfl
    | waveError =>
      simp only [synthesize, if_neg hm, tryBody, handleExc, Except.ok.injEq] at h
      subst h
      refine ⟨fun hf => ?_, fun hf hr => ?_, fun hf => ?_, fun b r' h' => ?_⟩
      · simp at hf
        simp [finallyCleanup, hp', hf]
      · simp at hf hr
        simp [finallyCleanup, hp', hf, hr]
      · simp at hf
        simp [finallyCleanup, hf]
      · simp only [synthesize, if_neg hm, tryBody, handleExc, Except.ok.injEq] at h'
        subst h'
        rfl
    | otherErr =>
      simp only [synthesize, if_neg hm, tryBody, handleExc, Except.ok.injEq] at h
      subst h
      refine ⟨fun hf => ?_, fun hf hr => ?_, fun hf => ?_, fun b r' h' => ?_⟩
      · simp at hf
        simp [finallyCleanup, hp', hf]
      · simp at hf hr
        simp [finallyCleanup, hp', hf, hr]
      · simp at hf
        simp [finallyCleanup, hf]
      · simp only [synthesize, if_neg hm, tryBody, handleExc, Except.ok.injEq] at h'
        subst h'
        rfl
    | ok frames =>
      simp only [synthesize, if_neg hm, tryBody, handleExc, Except.ok.injEq] at h
      subst h
      refine ⟨fun hf => ?_, fun hf hr => ?_, fun hf => ?_, fun b r' h' => ?_⟩
      · simp at hf
        simp [finallyCleanup, hp', hf]
      · simp at hf hr
        simp [finallyCleanup, hp', hf, hr]
      · simp at hf
        simp [finallyCleanup, hf]
      · simp only [synthesize, if_neg hm, tryBody, handleExc, Except.ok.injEq] at h'
        subst h'
        rfl

/-- Witness for `C9_cleanup_always`: on a concrete failing run whose
temp file exists at cleanup time, removal is attempted; with a
succeeding removal no file is left behind; and the returned boolean is
the same whether the removal succeeds or fails. -/
theorem C9_cleanup_always_witness :
    SynthResult.remove_attempted
      ⟨false, [], true, true, true, false,
        some (cmdList ⟨"piper", some ⟨"m.onnx", none, 24000⟩, 1, []⟩
          ⟨"m.onnx", none, 24000⟩ "/tmp/o.wav" false)⟩ = true ∧
    SynthResult.exists_after
      ⟨false, [], true, true, true, false,
        some (cmdList ⟨"piper", some ⟨"m.onnx", none, 24000⟩, 1, []⟩
          ⟨"m.onnx", none, 24000⟩ "/tmp/o.wav" false)⟩ = false ∧
    SynthResult.ret
      ⟨false, [], true, true, true, true,
        some (cmdList ⟨"piper", some ⟨"m.onnx", none, 24000⟩, 1, []⟩
          ⟨"m.onnx", none, 24000⟩ "/tmp/o.wav" false)⟩ =
      SynthResult.ret
        ⟨false, [], true, true, true, false,
          some (cmdList ⟨"piper", some ⟨"m.onnx", none, 24000⟩, 1, []⟩
            ⟨"m.onnx", none, 24000⟩ "/tmp/o.wav" false)⟩ := by
  have h := C9_cleanup_always ⟨"piper", some ⟨"m.onnx", none, 24000⟩, 1, []⟩
    ⟨"m.onnx", none, 24000⟩ "hello" "/tmp/o.wav"
    ⟨some "/tmp/o.wav", false, .exitNonZero 1 [69], .ok [1, 2], true, true⟩
    ⟨false, [], true, true, true, false,
      some (cmdList ⟨"piper", some ⟨"m.onnx", none, 24000⟩, 1, []⟩
        ⟨"m.onnx", none, 24000⟩ "/tmp/o.wav" false)⟩
    rfl (by decide) rfl (by decide) (by decide)
  exact ⟨h.1 rfl, h.2.1 rfl rfl,
    h.2.2.2 false
      ⟨false, [], true, true, true, true,
        some (cmdList ⟨"piper", some ⟨"m.onnx", none, 24000⟩, 1, []⟩
          ⟨"m.onnx", none, 24000⟩ "/tmp/o.wav" false)⟩ (by decide)⟩

/-- Claim C8: the command list starts with the executable, the model
flag with the model path, and the output-file flag with the temp path;
it contains the config flag (followed by the config path) iff a config
file is present (a truthy `config_file` that exists on disk); and it
contains the length-scale flag (followed by the rendered value) iff
`length_scale` differs from 1.0.  The collision hypotheses rule out the
degenerate paths that are spelled exactly like one of the flags. -/
theorem C8_cmd_list_structure (eng : PiperEngine) (v : PiperVoice) (p : String)
    (config_exists : Bool)
    (h1 : eng.piper_path ≠ "-c") (h2 : v.model_file ≠ "-c") (h3 : p ≠ "-c")
    (h4 : eng.piper_path ≠ "--length_scale") (h5 : v.model_file ≠ "--length_scale")
    (h6 : p ≠ "--length_scale")
    (h7 : ∀ c, v.config_file = some c → c ≠ "--length_scale") :
    (cmdList eng v p config_exists).take 5 =
      [Arg.str eng.piper_path, Arg.str "-m", Arg.str v.model_file,
       Arg.str "-f", Arg.str p] ∧
    (Arg.str "-c" ∈ cmdList eng v p config_exists ↔
      ∃ c, v.config_file = some c ∧ c ≠ "" ∧ config_exists = true) ∧
    (Arg.str "--length_scale" ∈ cmdList eng v p config_exists ↔
      eng.length_scale ≠ 1) ∧
    (∀ c, v.config_file = some c → c ≠ "" → config_exists = true →
      [Arg.str "-c", Arg.str c] <:+: cmdList eng v p config_exists) ∧
    (eng.length_scale ≠ 1 →
      [Arg.str "--length_scale", Arg.ratStr eng.length_scale] <:+:
        cmdList eng v p config_exists) := by
  have h1' := Ne.symm h1
  have h2' := Ne.symm h2
  have h3' := Ne.symm h3
  have h4' := Ne.symm h4
  have h5' := Ne.symm h5
  have h6' := Ne.symm h6
  refine ⟨?_, ?_, ?_, ?_, ?_⟩
  · cases hcf : v.config_file with
    | none => by_cases hls : eng.length_scale = 1 <;> simp [cmdList, hcf, hls]
    | some c =>
      by_cases hc : c = "" <;> cases config_exists <;>
        by_cases hls : eng.length_scale = 1 <;> simp [cmdList, hcf, hc, hls]
  · cases hcf : v.config_file with
    | none => by_cases hls : eng.length_scale = 1 <;>
        simp [cmdList, hcf, hls, h1', h2', h3']
    | some c =>
      by_cases hc : c = "" <;> cases config_exists <;>
        by_cases hls : eng.length_scale = 1 <;>
        simp [cmdList, hcf, hc, hls, h1', h2', h3']
  · cases hcf : v.config_file with
    | none => by_cases hls : eng.length_scale = 1 <;>
        simp [cmdList, hcf, hls, h4', h5', h6']
    | some c =>
      have h7' := Ne.symm (h7 c hcf)
      by_cases hc : c = "" <;> cases config_exists <;>
        by_cases hls : eng.length_scale = 1 <;>
        simp [cmdList, hcf, hc, hls, h4', h5', h6', h7']
  · intro c hcf hc hce
    subst hce
    by_cases hls : eng.length_scale = 1
    · exact ⟨[Arg.str eng.piper_path, Arg.str "-m", Arg.str v.model_file,
        Arg.str "-f", Arg.str p], [], by simp [cmdList, hcf, hc, hls]⟩
    · exact ⟨[Arg.str eng.piper_path, Arg.str "-m", Arg.str v.model_file,
        Arg.str "-f", Arg.str p],
        [Arg.str "--length_scale", Arg.ratStr eng.length_scale],
        by simp [cmdList, hcf, hc, hls]⟩
  · intro hls
    cases hcf : v.config_file with
    | none =>
      exact ⟨[Arg.str eng.piper_path, Arg.str "-m", Arg.str v.model_file,
        Arg.str "-f", Arg.str p], [], by simp [cmdList, hcf, hls]⟩
    | some c =>
      by_cases hc : c = ""
      · exact ⟨[Arg.str eng.piper_path, Arg.str "-m", Arg.str v.model_file,
          Arg.str "-f", Arg.str p], [], by simp [cmdList, hcf, hc, hls]⟩
      · cases config_exists with
        | false =>
          exact ⟨[Arg.str eng.piper_path, Arg.str "-m", Arg.str v.model_file,
            Arg.str "-f", Arg.str p], [], by simp [cmdList, hcf, hc, hls]⟩
        | true =>
          exact ⟨[Arg.str eng.piper_path, Arg.str "-m", Arg.str v.model_file,
            Arg.str "-f", Arg.str p, Arg.str "-c", Arg.str c], [],
            by simp [cmdList, hcf, hc, hls]⟩

/-- Witness for `C8_cmd_list_structure`: a concrete engine with a
present config file and `length_scale = 4/5` has the fixed 5-element
prefix, contains both optional flags, and carries each flag directly
followed by its value. -/
theorem C8_cmd_list_structure_witness :
    (cmdList ⟨"piper", some ⟨"m.onnx", some "c.json", 24000⟩, 4/5, []⟩
        ⟨"m.onnx", some "c.json", 24000⟩ "/tmp/o.wav" true).take 5 =
      [Arg.str "piper", Arg.str "-m", Arg.str "m.onnx",
       Arg.str "-f", Arg.str "/tmp/o.wav"] ∧
    Arg.str "-c" ∈ cmdList ⟨"piper", some ⟨"m.onnx", some "c.json", 24000⟩, 4/5, []⟩
      ⟨"m.onnx", some "c.json", 24000⟩ "/tmp/o.wav" true ∧
    Arg.str "--length_scale" ∈
      cmdList ⟨"piper", some ⟨"m.onnx", some "c.json", 24000⟩, 4/5, []⟩
        ⟨"m.onnx", some "c.json", 24000⟩ "/tmp/o.wav" true ∧
    [Arg.str "-c", Arg.str "c.json"] <:+:
      cmdList ⟨"piper", some ⟨"m.onnx", some "c.json", 24000⟩, 4/5, []⟩
        ⟨"m.onnx", some "c.json", 24000⟩ "/tmp/o.wav" true ∧
    [Arg.str "--length_scale", Arg.ratStr (4/5)] <:+:
      cmdList ⟨"piper", some ⟨"m.onnx", some "c.json", 24000⟩, 4/5, []⟩
        ⟨"m.onnx", some "c.json", 24000⟩ "/tmp/o.wav" true := by
  have h := C8_cmd_list_structure ⟨"piper", some ⟨"m.onnx", some "c.json", 24000⟩, 4/5, []⟩
    ⟨"m.onnx", some "c.json", 24000⟩ "/tmp/o.wav" true
    (by decide) (by decide) (by decide) (by decide) (by decide) (by decide)
    (fun c hc => by injection hc with hc; subst hc; decide)
  exact ⟨h.1, h.2.1.mpr ⟨"c.json", rfl, by decide, rfl⟩,
    h.2.2.1.mpr (show (4 / 5 : Rat) ≠ 1 by norm_num),
    h.2.2.2.1 "c.json" rfl (by decide) rfl,
    h.2.2.2.2 (show (4 / 5 : Rat) ≠ 1 by norm_num)⟩

end PiperSpec
